import Mathlib

/-!
Shallow embedding of the `rs-cargo` repository (a skeleton JSON-like
validator/canonicalizer) and verification of its specification claims.

The embedding mirrors `src/cargo.rs`, `src/args.rs` and `src/main.rs`:
  * Rust `String` is modelled as Lean `String` (a sequence of Unicode code
    points); `String::len()` (the UTF-8 byte length) is `String.utf8ByteSize`.
  * Rust `Result<T, Box<dyn Error>>` is modelled as `Except String T`.
  * The reader functions in the source take a `BufReader<Stdin>` handle (or,
    for `read_cargo_value`, no argument at all) and never actually consume
    input; the embedding gives each an explicit `input : String` parameter
    standing for the full input document so that input-dependence of the
    observable behaviour can be stated.  The bodies ignore it exactly as the
    source does.
  * The writer methods in the source emit nothing to any sink and return
    `Ok(())`; the embedding returns the emitted text in the `ok` payload,
    which is therefore always the empty string.
-/

namespace RsCargo

/-- Tag enumeration `CargoValueType` from `src/cargo.rs`. -/
inductive CargoValueType where
  | CargoNoType
  | CargoObjectType
  | CargoArrayType
  | CargoNumberType
  | CargoStringType
  | CargoBasicType
deriving DecidableEq

/-- `CARGO_PRECISION` from `src/cargo.rs`. -/
def CARGO_PRECISION : Int := 15

/-- Token constants for the basic values, from `src/cargo.rs`. -/
def CARGO_TRUE_TOKEN : String := "true"

def CARGO_FALSE_TOKEN : String := "false"

def CARGO_NULL_TOKEN : String := "null"

/-- `CARGO_DIGIT0 = AsciiChar::_0.as_char()` from `src/cargo.rs`. -/
def CARGO_DIGIT0 : Char := '0'

/-- `CARGO_E = AsciiChar::e.as_char()` from `src/cargo.rs`. -/
def CARGO_E : Char := 'e'

/-- `CARGO_SPACE = AsciiChar::Space.as_char()` from `src/cargo.rs`. -/
def CARGO_SPACE : Char := ' '

/-- `CargoString` from `src/cargo.rs`: a capacity hint, a length field and a
character buffer.  The Rust buffer is a `String`; we keep it as a Lean
`String`, whose `length` counts code points. -/
structure CargoString where
  capacity : Nat
  length : Nat
  content : String
deriving DecidableEq

/-- `CargoString::new` from `src/cargo.rs`: a plain field constructor. -/
def CargoString.new (capacity : Nat) (length : Nat) (content : String) :
    CargoString :=
  { capacity := capacity, length := length, content := content }

/-- `CargoString::append_char` from `src/cargo.rs`:
`self.content.push(c); self.length += 1;`. -/
def CargoString.append_char (s : CargoString) (c : Char) : CargoString :=
  { s with content := s.content.push c, length := s.length + 1 }

/-- `read_cargo_string` from `src/cargo.rs`: ignores its reader and returns
`Ok(CargoString { capacity: 10, length: 10, content: String::new() })`. -/
def read_cargo_string (input : String) : Except String CargoString :=
  Except.ok { capacity := 10, length := 10, content := "" }

/-- `CargoNumber` from `src/cargo.rs`.  The `int_value` field is a Rust `u64`;
no arithmetic is ever performed on it in the source, so we carry it as a `Nat`
(every value the program could store fits, since none is ever stored).  The
`float_value` field is an `f64`, carried as Lean `Float`; the source never
constructs or inspects one. -/
structure CargoNumber where
  string_value : Option CargoString
  int_value : Option Nat
  float_value : Option Float

/-- `read_cargo_number` from `src/cargo.rs`: ignores its reader and returns
`Ok(())` — it produces no number and never fails. -/
def read_cargo_number (input : String) : Except String Unit :=
  Except.ok ()

/-- `CargoBasic` from `src/cargo.rs`.  Note that the `CargoTrue` and
`CargoFalse` constructors each carry a `bool` payload in the source. -/
inductive CargoBasic where
  | CargoNull
  | CargoTrue : Bool → CargoBasic
  | CargoFalse : Bool → CargoBasic
deriving DecidableEq

/-- `read_cargo_basic` from `src/cargo.rs`: ignores its reader and returns
`Ok(CargoBasic::CargoTrue(true))` unconditionally. -/
def read_cargo_basic (input : String) : Except String CargoBasic :=
  Except.ok (CargoBasic.CargoTrue true)

mutual

/-- `CargoContent` from `src/cargo.rs`: the tagged union of payloads. -/
inductive CargoContent where
  | Object : CargoObject → CargoContent
  | Array : CargoArray → CargoContent
  | String : CargoString → CargoContent
  | Number : CargoNumber → CargoContent
  | Basic : CargoBasic → CargoContent

/-- `CargoObject` from `src/cargo.rs`: `member_list: Option<CargoValue>`. -/
inductive CargoObject where
  | mk : Option CargoValue → CargoObject

/-- `CargoArray` from `src/cargo.rs`: `element_list: Option<CargoValue>`. -/
inductive CargoArray where
  | mk : Option CargoValue → CargoArray

/-- `CargoValue` from `src/cargo.rs`: a type tag, a name and a content
payload. -/
inductive CargoValue where
  | mk : CargoValueType → CargoString → CargoContent → CargoValue

end

/-- Field accessor for `CargoObject.member_list`. -/
def CargoObject.member_list : CargoObject → Option CargoValue
  | .mk l => l

/-- Field accessor for `CargoArray.element_list`. -/
def CargoArray.element_list : CargoArray → Option CargoValue
  | .mk l => l

/-- Field accessor for `CargoValue.cargo_type`. -/
def CargoValue.cargo_type : CargoValue → CargoValueType
  | .mk t _ _ => t

/-- Field accessor for `CargoValue.name`. -/
def CargoValue.name : CargoValue → CargoString
  | .mk _ n _ => n

/-- Field accessor for `CargoValue.content`. -/
def CargoValue.content : CargoValue → CargoContent
  | .mk _ _ c => c

/-- `read_cargo_object` from `src/cargo.rs`: ignores its reader and returns
`Ok(CargoObject { member_list: None })`. -/
def read_cargo_object (input : String) : Except String CargoObject :=
  Except.ok (CargoObject.mk none)

/-- `read_cargo_array` from `src/cargo.rs`: ignores its reader and returns
`Ok(CargoArray { element_list: None })`. -/
def read_cargo_array (input : String) : Except String CargoArray :=
  Except.ok (CargoArray.mk none)

/-- `CargoValue::new` from `src/cargo.rs`.  The `name` field is built from
the Rust `String` argument with `capacity: name.capacity()`,
`length: name.len()` (UTF-8 byte length), `content: name`.  Rust's
`capacity()` is an allocation detail that is at least the byte length and is
never observed; we model it as the byte length.  The `content` field is
built by `match _type`, whose FIRST arm is the pattern
`CargoValueType::CargoObjectType | _`, which matches every tag; the second
arm (`CargoArrayType => Array`) is unreachable dead code.  Hence the content
is always an `Object` payload with an empty member list, whatever the tag. -/
def CargoValue.new (t : CargoValueType) (name : String) : CargoValue :=
  CargoValue.mk t
    { capacity := name.utf8ByteSize, length := name.utf8ByteSize,
      content := name }
    (CargoContent.Object (CargoObject.mk none))

/-- `read_cargo_value` from `src/cargo.rs`: the parse entry point.  In the
source it takes no reader at all and returns
`Ok(CargoValue::new(CargoObjectType, "Sentinel"))`; the `input` parameter
stands for the input document and is ignored exactly as the source ignores
its input stream. -/
def read_cargo_value (input : String) : Except String CargoValue :=
  Except.ok (CargoValue.new CargoValueType.CargoObjectType ("Sentinel"))

/-- `cargo_is_whitespace` from `src/cargo.rs`. -/
def cargo_is_whitespace (c : Char) : Bool :=
  c = CARGO_SPACE || c = '\n' || c = '\r' || c = '\t'

/-- `cargo_is_exponent` from `src/cargo.rs`. -/
def cargo_is_exponent (c : Char) : Bool :=
  c = CARGO_E || c = 'E'

/-- `cargo_is_digit` from `src/cargo.rs`:
`c >= CARGO_DIGIT0 || c <= AsciiChar::_9.as_char()` — note the source uses a
DISJUNCTION of the two range bounds. -/
def cargo_is_digit (c : Char) : Bool :=
  decide (c ≥ CARGO_DIGIT0) || decide (c ≤ '9')

/-- `cargo_is_hex` from `src/cargo.rs`. -/
def cargo_is_hex (c : Char) : Bool :=
  cargo_is_digit c
    || (decide (c ≥ 'A') && decide (c ≤ 'F'))
    || (decide (c ≥ 'a') && decide (c ≤ 'f'))

/-- `cargo_is_control` from `src/cargo.rs`. -/
def cargo_is_control (c : Char) : Bool :=
  decide (c ≥ Char.ofNat 0) && decide (c < CARGO_SPACE)

/-- The error payload of a Rust `Result<_, Box<dyn Error>>`, carried as the
error message text. -/
abbrev ErrorMsg := String

/-- The text a writer emits to its output sink. -/
abbrev Emitted := String

/-- `write_cargo_string` from `src/cargo.rs`: builds a throwaway empty
`CargoString` and returns `Ok(())`, emitting nothing.  The `ok` payload is
the emitted text. -/
def CargoString.write_cargo_string (s : CargoString) : Except ErrorMsg Emitted :=
  Except.ok ""

/-- `write_cargo_number` from `src/cargo.rs`: returns `Ok(())`, emitting
nothing. -/
def CargoNumber.write_cargo_number (n : CargoNumber) : Except ErrorMsg Emitted :=
  Except.ok ""

/-- `write_cargo_basic` from `src/cargo.rs`: returns `Ok(())`, emitting
nothing. -/
def CargoBasic.write_cargo_basic (b : CargoBasic) : Except ErrorMsg Emitted :=
  Except.ok ""

/-- `write_cargo_object` from `src/cargo.rs`: returns `Ok(())`, emitting
nothing. -/
def CargoObject.write_cargo_object (o : CargoObject) : Except ErrorMsg Emitted :=
  Except.ok ""

/-- `write_cargo_array` from `src/cargo.rs`: returns `Ok(())`, emitting
nothing. -/
def CargoArray.write_cargo_array (a : CargoArray) : Except ErrorMsg Emitted :=
  Except.ok ""

/-- `WriteCargo::write_cargo_cargo` for `CargoContent` from `src/cargo.rs`:
dispatches on the variant to the per-variant writer. -/
def CargoContent.write_cargo_cargo : CargoContent → Except ErrorMsg Emitted
  | .Object o => o.write_cargo_object
  | .Array a => a.write_cargo_array
  | .String s => s.write_cargo_string
  | .Number n => n.write_cargo_number
  | .Basic b => b.write_cargo_basic

/-- `is_num_args_valid` from `src/args.rs`: true exactly for 2, 3 or 4
arguments. -/
def is_num_args_valid (argc : Nat) : Bool :=
  match argc with
  | 2 => true
  | 3 => true
  | 4 => true
  | _ => false

/-- `are_cargo_args_valid` from `src/args.rs`:
`if !is_num_args_valid(argc) { false } else { true }` — the `argv` contents
are never inspected. -/
def are_cargo_args_valid (argc : Nat) (argv : List String) : Bool :=
  if !is_num_args_valid argc then false else true

/-- Observable outcome of one run of `main` from `src/main.rs`. -/
structure MainOutcome where
  printed_usage : Bool
  exit_code : Nat
  attempted_parse : Bool
deriving DecidableEq

/-- `main` from `src/main.rs`: collects `argv`, computes
`argc = argv.len()`, calls `are_cargo_args_valid`, prints the usage text to
stdout when the check fails, and then returns `()` — so the process exit
status is 0 on every path, and no reader function is ever invoked. -/
def main_run (argv : List String) : MainOutcome :=
  let argc := argv.length
  let is_valid := are_cargo_args_valid argc argv
  { printed_usage := !is_valid, exit_code := 0, attempted_parse := false }

/-- Formalisation of the spec invariant for claim C1: the variant of the
content payload matches the stored type tag. -/
def tag_matches_content : CargoValueType → CargoContent → Bool
  | CargoValueType.CargoObjectType, CargoContent.Object _ => true
  | CargoValueType.CargoArrayType, CargoContent.Array _ => true
  | CargoValueType.CargoStringType, CargoContent.String _ => true
  | CargoValueType.CargoNumberType, CargoContent.Number _ => true
  | CargoValueType.CargoBasicType, CargoContent.Basic _ => true
  | _, _ => false

/-- Claim C1 (evaluation of the defect): `CargoValue::new` called with the
`CargoArrayType` tag stores that tag but, because the first match arm
`CargoObjectType | _` subsumes every case, stores an `Object` payload — the
tag does not match the payload variant. -/
theorem c1_new_array_tag_payload_mismatch :
    (CargoValue.new CargoValueType.CargoArrayType ("elements")).cargo_type
      = CargoValueType.CargoArrayType ∧
    (CargoValue.new CargoValueType.CargoArrayType ("elements")).content
      = CargoContent.Object (CargoObject.mk none) ∧
    tag_matches_content
      (CargoValue.new CargoValueType.CargoArrayType ("elements")).cargo_type
      (CargoValue.new CargoValueType.CargoArrayType ("elements")).content
      = false :=
  ⟨rfl, rfl, rfl⟩

/-- Claim C2 (evaluation of the defect): `cargo_is_digit` joins its two
range bounds with a disjunction instead of a conjunction, so it accepts the
non-digit character a — in fact it accepts every character — and
consequently `cargo_is_hex` also accepts every character, such as a tilde. -/
theorem c2_is_digit_accepts_every_char :
    cargo_is_digit 'a' = true ∧ cargo_is_hex '~' = true ∧
    (∀ c : Char, cargo_is_digit c = true) := by
  refine ⟨by decide, by decide, fun c => ?_⟩
  simp only [cargo_is_digit, Bool.or_eq_true, decide_eq_true_eq, ge_iff_le]
  rcases le_total CARGO_DIGIT0 c with h | h
  · exact Or.inl h
  · exact Or.inr (le_trans h (by decide))

/-- Claim C3 (evaluation of the defect): every document of the rejection
list is accepted — `read_cargo_value` ignores its input and returns `Ok` of
the fixed sentinel value, and `read_cargo_number` likewise returns `Ok` on
the malformed numbers. -/
theorem c3_rejection_cases_accepted :
    (read_cargo_value ("\x7b,\x7d")).isOk = true ∧
    (read_cargo_value ("[1,]")).isOk = true ∧
    (read_cargo_value ("\x7b\"a\":1,\x7d")).isOk = true ∧
    (read_cargo_value ("01")).isOk = true ∧
    (read_cargo_value ("1.")).isOk = true ∧
    (read_cargo_value (".1")).isOk = true ∧
    (read_cargo_value ("\"abc")).isOk = true ∧
    (read_cargo_value ("\"a\x01\"")).isOk = true ∧
    read_cargo_number ("01") = Except.ok () ∧
    read_cargo_number ("1.") = Except.ok () :=
  ⟨rfl, rfl, rfl, rfl, rfl, rfl, rfl, rfl, rfl, rfl⟩

/-- Claim C4 (evaluation of the defect): `append_char` itself keeps the
length field consistent with the content buffer, but `read_cargo_string`
returns a `CargoString` whose length field is 10 while its content buffer is
empty, breaking the consistency invariant. -/
theorem c4_read_cargo_string_length_inconsistent :
    (∀ (s : CargoString) (c : Char),
      (s.append_char c).content = s.content.push c ∧
      (s.append_char c).length = s.length + 1) ∧
    read_cargo_string ("abc") = Except.ok (CargoString.new 10 10 ("")) ∧
    (CargoString.new 10 10 ("")).length ≠
      (CargoString.new 10 10 ("")).content.length :=
  ⟨fun s c => ⟨rfl, rfl⟩, rfl, by decide⟩

/-- Claim C5 (evaluation of the defect): `read_cargo_basic` returns
`Ok(CargoTrue(true))` whatever the token — on the token "false" it yields a
True value rather than a False value, and on the garbage token "txyz" it
succeeds instead of failing. -/
theorem c5_read_cargo_basic_ignores_token :
    read_cargo_basic (CARGO_FALSE_TOKEN) = Except.ok (CargoBasic.CargoTrue true) ∧
    read_cargo_basic (CARGO_NULL_TOKEN) = Except.ok (CargoBasic.CargoTrue true) ∧
    (read_cargo_basic ("txyz")).isOk = true ∧
    CargoBasic.CargoTrue true ≠ CargoBasic.CargoFalse true :=
  ⟨rfl, rfl, rfl, by decide⟩

/-- Claim C6 (evaluation of the defect): the argument check accepts the
conflicting combination of -v with -c and the combination -p without -c
(it looks only at the count), and `main` exits with status 0 even when the
check fails, printing the usage text but never a non-zero status. -/
theorem c6_conflicting_args_pass_check :
    are_cargo_args_valid 3 ["rs-cargo", "-v", "-c"] = true ∧
    (main_run ["rs-cargo", "-v", "-c"]).printed_usage = false ∧
    are_cargo_args_valid 3 ["rs-cargo", "-p", "2"] = true ∧
    (main_run ["rs-cargo"]).printed_usage = true ∧
    (main_run ["rs-cargo"]).exit_code = 0 :=
  ⟨rfl, rfl, rfl, rfl, rfl⟩

/-- `CargoBasic` is in bijection with a five-element type: `CargoNull` plus
a Boolean payload under each of `CargoTrue` and `CargoFalse`. -/
def cargoBasicEquivFin5 : CargoBasic ≃ Fin 5 where
  toFun b :=
    match b with
    | CargoBasic.CargoNull => ⟨0, by omega⟩
    | CargoBasic.CargoTrue true => ⟨1, by omega⟩
    | CargoBasic.CargoTrue false => ⟨2, by omega⟩
    | CargoBasic.CargoFalse true => ⟨3, by omega⟩
    | CargoBasic.CargoFalse false => ⟨4, by omega⟩
  invFun i :=
    match i with
    | ⟨0, _⟩ => CargoBasic.CargoNull
    | ⟨1, _⟩ => CargoBasic.CargoTrue true
    | ⟨2, _⟩ => CargoBasic.CargoTrue false
    | ⟨3, _⟩ => CargoBasic.CargoFalse true
    | ⟨4, _⟩ => CargoBasic.CargoFalse false
    | ⟨n + 5, h⟩ => absurd h (by omega)
  left_inv b := by
    cases b with
    | CargoNull => rfl
    | CargoTrue v => cases v <;> rfl
    | CargoFalse v => cases v <;> rfl
  right_inv i := by fin_cases i <;> rfl

/-- Claim C7 counterexample: the two distinct inhabitants
`CargoTrue true` and `CargoTrue false` already show the payloads make extra
inhabitants, and there is no bijection between `CargoBasic` and a
three-element type. -/
theorem c7_not_three_inhabitants :
    CargoBasic.CargoTrue true ≠ CargoBasic.CargoTrue false ∧
    IsEmpty (CargoBasic ≃ Fin 3) := by
  refine ⟨by decide, ⟨fun e => ?_⟩⟩
  have h : Nonempty (Fin 5 ≃ Fin 3) := ⟨cargoBasicEquivFin5.symm.trans e⟩
  have h53 := Fin.equiv_iff_eq.mp h
  omega

/-- Claim C7 as amended: `CargoBasic` is a closed type whose every
inhabitant is `CargoNull`, a `CargoTrue` or a `CargoFalse`, but the Boolean
payloads of the latter two make it a FIVE-element type (in bijection with
`Fin 5`), not a three-element one. -/
theorem c7_five_inhabitants :
    Nonempty (CargoBasic ≃ Fin 5) ∧
    (∀ x : CargoBasic, x = CargoBasic.CargoNull ∨
      (∃ v, x = CargoBasic.CargoTrue v) ∨ (∃ v, x = CargoBasic.CargoFalse v)) := by
  refine ⟨⟨cargoBasicEquivFin5⟩, fun x => ?_⟩
  cases x with
  | CargoNull => exact Or.inl rfl
  | CargoTrue v => exact Or.inr (Or.inl ⟨v, rfl⟩)
  | CargoFalse v => exact Or.inr (Or.inr ⟨v, rfl⟩)

/-- One canonicalize-then-reparse step: serialize the tree with the writer
and parse the emitted text again. -/
def canonical_reparse (v : CargoValue) : Except String CargoValue :=
  (v.content.write_cargo_cargo).bind (fun out => read_cargo_value out)

/-- Claim C8: for every document the parser accepts, writing the parsed
tree and reparsing the output yields a structurally equal tree, and a second
canonicalize-and-reparse iteration agrees as well.  (This holds degenerately:
the skeleton parser returns the same sentinel tree for every input and the
writer emits the empty string.) -/
theorem c8_round_trip (D : String)
    (h : (read_cargo_value D).isOk = true) :
    (read_cargo_value D).bind canonical_reparse = read_cargo_value D ∧
    ((read_cargo_value D).bind canonical_reparse).bind canonical_reparse
      = read_cargo_value D :=
  ⟨rfl, rfl⟩

/-- Witness for claim C8 at the concrete valid document. -/
theorem c8_round_trip_witness :
    (read_cargo_value ("\x7b\"k\":[1,2]\x7d")).isOk = true ∧
    ((read_cargo_value ("\x7b\"k\":[1,2]\x7d")).bind canonical_reparse
       = read_cargo_value ("\x7b\"k\":[1,2]\x7d") ∧
     ((read_cargo_value ("\x7b\"k\":[1,2]\x7d")).bind canonical_reparse).bind
         canonical_reparse = read_cargo_value ("\x7b\"k\":[1,2]\x7d")) :=
  ⟨rfl, c8_round_trip ("\x7b\"k\":[1,2]\x7d") rfl⟩

/-- Claim C9: the writer returns `Ok` on every value tree — serialization
never fails (each per-variant writer unconditionally returns `Ok`). -/
theorem c9_write_never_fails :
    ∀ v : CargoValue, (v.content.write_cargo_cargo).isOk = true := by
  intro v
  cases v with
  | mk t n c => cases c <;> rfl

/-- `are_cargo_args_valid` coincides with `is_num_args_valid` on the count:
the `argv` contents are never consulted. -/
theorem are_eq_is_num (argc : Nat) (argv : List String) :
    are_cargo_args_valid argc argv = is_num_args_valid argc := by
  unfold are_cargo_args_valid
  cases h : is_num_args_valid argc <;> simp [h]

/-- `is_num_args_valid` holds exactly for counts 2, 3 and 4. -/
theorem is_num_args_valid_iff (argc : Nat) :
    is_num_args_valid argc = true ↔ (argc = 2 ∨ argc = 3 ∨ argc = 4) := by
  match argc with
  | 0 => decide
  | 1 => decide
  | 2 => decide
  | 3 => decide
  | 4 => decide
  | (n + 5) =>
    have h : is_num_args_valid (n + 5) = false := rfl
    simp only [h, Bool.false_eq_true, false_iff]
    omega

/-- Claim C10: the CLI argument check depends only on the argument count —
two vectors of equal length always get the same verdict — and it accepts a
vector exactly when its length is 2, 3 or 4. -/
theorem c10_args_check_depends_only_on_count :
    (∀ v1 v2 : List String, v1.length = v2.length →
      are_cargo_args_valid v1.length v1 = are_cargo_args_valid v2.length v2) ∧
    (∀ v : List String, are_cargo_args_valid v.length v = true ↔
      (v.length = 2 ∨ v.length = 3 ∨ v.length = 4)) := by
  constructor
  · intro v1 v2 h
    rw [are_eq_is_num, are_eq_is_num, h]
  · intro v
    rw [are_eq_is_num]
    exact is_num_args_valid_iff v.length

/-- Witness for claim C10 at concrete argument vectors. -/
theorem c10_args_check_witness :
    are_cargo_args_valid 2 ["-v", "x"] = are_cargo_args_valid 2 ["-c", "y"] ∧
    (are_cargo_args_valid 3 ["rs-cargo", "-c", "-p"] = true ↔
      ((3 : Nat) = 2 ∨ (3 : Nat) = 3 ∨ (3 : Nat) = 4)) :=
  ⟨c10_args_check_depends_only_on_count.1 ["-v", "x"] ["-c", "y"] rfl,
   c10_args_check_depends_only_on_count.2 ["rs-cargo", "-c", "-p"]⟩

end RsCargo
